import Mathlib

/-!
Shallow embedding of the collection-retrieval core of the contracts-rag
repository (src/retrieve_chroma.py, src/cli/contracts_cli.py,
src/core/rag_service.py), together with theorems settling the frozen claims.

The persisted Chroma store, the embedding function and the hosted LLM are
external collaborators: they are modelled as opaque data (a `ChromaStore`
record of outcomes and ranked results, an event in a trace for the LLM
client), while the repository's own control flow - fallback branching,
startup checks, credential defaulting, size formatting, TOP_K parsing -
is translated function by function from the Python source.
-/

namespace ContractsRag

/-! ## Python value helpers -/

/-- Python truthiness on an optional string: `None` and `""` are falsy. -/
def pyFalsy : Option String → Bool
  | none => true
  | some s => s = ""

/-- Python `a or b` on optional strings: yields `b` when `a` is falsy. -/
def pyOr (a b : Option String) : Option String :=
  if pyFalsy a then b else a

/-- The whitespace characters Python's `int` strips. -/
def pyIsSpace (c : Char) : Bool :=
  c = ' ' || c = '\t' || c = '\n' || c = '\r' || c = '\x0b' || c = '\x0c'

/-- Strip leading and trailing whitespace from a character list. -/
def stripChars (l : List Char) : List Char :=
  ((l.dropWhile pyIsSpace).reverse.dropWhile pyIsSpace).reverse

/-- Python `int(s)` restricted to plain decimal literals: strip surrounding
whitespace, allow one optional sign, then require a nonempty digit string;
`none` models the `ValueError` raise. -/
def pyIntOfString (s : String) : Option Int :=
  let t := stripChars s.data
  let p : Bool × List Char :=
    match t with
    | '-' :: rest => (true, rest)
    | '+' :: rest => (false, rest)
    | _ => (false, t)
  if p.2.isEmpty then none
  else if p.2.all Char.isDigit then
    let v : Nat := p.2.foldl (fun acc c => acc * 10 + (c.toNat - 48)) 0
    some (if p.1 then -(v : Int) else (v : Int))
  else none

/-- `retrieve_chroma.main` lines 88-91: `int(os.getenv("TOP_K", "2"))`,
with `ValueError` handled by substituting 5. -/
def effectiveTopK (envTopK : Option String) : Int :=
  match pyIntOfString (envTopK.getD "2") with
  | some n => n
  | none => 5

/-! ## get_directory_size (retrieve_chroma.py lines 30-43)

The walk over the directory is abstracted as the list of per-file size
lookups it performs: `some sz` when `os.path.getsize` succeeds, `none` when
it raises `OSError` (the file is skipped). Python formats `x:.2f` on a
binary float; the two-decimal rendering is modelled on the exact rational
with round-half-to-even. -/

/-- Sum of the accessible file sizes; an inaccessible file (`none`)
contributes nothing. -/
def dirTotalSize (files : List (Option Nat)) : Nat :=
  files.foldl (fun acc f => match f with | some sz => acc + sz | none => acc) 0

/-- Two-digit zero-padding for the fractional part. -/
def pad2 (n : Nat) : String :=
  if n < 10 then "0" ++ toString n else toString n

/-- Two-decimal fixed-point rendering of `num / den`, round half to even. -/
def fmt2 (num den : Nat) : String :=
  let scaled := num * 100
  let q := scaled / den
  let r := scaled % den
  let q2 := if den < 2 * r then q + 1
            else if (2 * r == den) && (q % 2 == 1) then q + 1
            else q
  toString (q2 / 100) ++ "." ++ pad2 (q2 % 100)

/-- `get_directory_size`: total the sizes, then format in KB when the total
is below 1024*1024 bytes and in MB otherwise. -/
def get_directory_size (files : List (Option Nat)) : String :=
  let total := dirTotalSize files
  if total < 1024 * 1024 then fmt2 total 1024 ++ " KB"
  else fmt2 total (1024 * 1024) ++ " MB"

/-! ## The store model and the retrieval block (retrieve_chroma.py 131-137) -/

/-- A stored chunk as the retrieval code sees it: page content plus string
metadata. Chunk identity is exactly this pair. -/
structure Doc where
  page_content : String
  metadata : List (String × String)
deriving DecidableEq, Repr

/-- Failure modes of a store search: the capability failure (scored search
unsupported, e.g. an older langchain version) versus any other failure
(invalid handle, storage unreachable, ...). -/
inductive SearchErr where
  | scoredUnsupported
  | storeFailure (msg : String)
deriving DecidableEq, Repr

/-- The external Chroma collection handle, opaque to the core. `rankedDocs`
is the store's ranked answer for a (query, k) pair - deterministic while the
collection is unmodified. `scoreAt noise i` is the numeric score the store
reports for rank `i` on a given run: the `noise` argument models the
run-to-run numeric variation the spec allows for scores. `scoredFailure`
and `unscoredFailure` record whether the respective search raises. -/
structure ChromaStore where
  scoredFailure : Option SearchErr
  unscoredFailure : Option SearchErr
  rankedDocs : String → Int → List Doc
  scoreAt : Nat → Nat → Int

/-- Pair each ranked doc with the score the store reports for its rank. -/
def attachScores (f : Nat → Int) : List Doc → Nat → List (Doc × Int)
  | [], _ => []
  | d :: ds, i => (d, f i) :: attachScores f ds (i + 1)

/-- `db.similarity_search_with_score(query, k=top_k)` on the store model. -/
def similarity_search_with_score (s : ChromaStore) (q : String) (k : Int)
    (noise : Nat) : Except SearchErr (List (Doc × Int)) :=
  match s.scoredFailure with
  | some e => .error e
  | none => .ok (attachScores (s.scoreAt noise) (s.rankedDocs q k) 0)

/-- `db.similarity_search(query, k=top_k)` on the store model. -/
def similarity_search (s : ChromaStore) (q : String) (k : Int) :
    Except SearchErr (List Doc) :=
  match s.unscoredFailure with
  | some e => .error e
  | none => .ok (s.rankedDocs q k)

/-- retrieve_chroma.py lines 131-137: try the scored search; on any
exception fall back to the unscored search with the same `k` and pair every
doc with `None`. -/
def performQuery (s : ChromaStore) (q : String) (k : Int) (noise : Nat) :
    Except SearchErr (List (Doc × Option Int)) :=
  match similarity_search_with_score s q k noise with
  | .ok results => .ok (results.map (fun p => (p.1, some p.2)))
  | .error _ =>
    match similarity_search s q k with
    | .ok docs => .ok (docs.map (fun d => (d, none)))
    | .error e => .error e

/-- Project a retrieval outcome to the ordered chunk identities. -/
def chunkIds (r : Except SearchErr (List (Doc × Option Int))) :
    Except SearchErr (List Doc) :=
  r.map (List.map Prod.fst)

/-! ## Startup (retrieve_chroma.py 85-97, contracts_cli.py 43-46) -/

/-- The environment variables retrieve_chroma.py reads. -/
structure Env where
  PERSIST_DIR : Option String
  MODEL_NAME : Option String
  TOP_K : Option String

/-- Observable operations against external resources during startup. -/
inductive Op where
  | loadEmbeddingFn (model : String)
  | openCollection (name : String)
  | searchQuery (q : String) (k : Int)
deriving DecidableEq, Repr

/-- Lines 86, 93: `os.getenv("PERSIST_DIR", "../chroma_db")` expanded. -/
def resolvedPersistDir (env : Env) (expandUser : String → String) : String :=
  expandUser (env.PERSIST_DIR.getD "../chroma_db")

/-- retrieve_chroma.py lines 85-97: parse env, expand the persist dir, exit
with a message when it does not exist (trace stays empty - `SystemExit`
aborts before anything runs), otherwise load the embedding function and
enter the interactive loop. -/
def retrieveStartup (env : Env) (pathExists : String → Bool)
    (expandUser : String → String) : List Op × Option String :=
  let persist_dir := resolvedPersistDir env expandUser
  let model_name := env.MODEL_NAME.getD "sentence-transformers/all-MiniLM-L6-v2"
  if pathExists persist_dir then
    ([Op.loadEmbeddingFn model_name], none)
  else
    ([], some ("Chroma persist directory not found: " ++ persist_dir))

/-- contracts_cli.py lines 43-46: expand the configured persist dir and exit
when it does not exist; the CLI opens no resource before its loop, so the
startup trace is empty either way, but only the missing-dir branch exits. -/
def cliStartup (persistDirCfg : String) (pathExists : String → Bool)
    (expandUser : String → String) : List Op × Option String :=
  let persist_dir := expandUser persistDirCfg
  if pathExists persist_dir then ([], none)
  else ([], some ("Chroma persist directory not found: " ++ persist_dir))

/-! ## RAG chain setup (core/rag_service.py) -/

/-- The chain `setup_rag_chain` returns: the ChatGroq client's model and
key, and the retriever's `search_kwargs={"k": top_k}`. -/
structure Chain where
  llmModel : Option String
  llmKey : Option String
  retrieverK : Int
deriving DecidableEq, Repr

/-- External effects of `setup_rag_chain`; constructing the `ChatGroq`
client is the only network-resource creation in the function. -/
inductive RagEvent where
  | createLLMClient (model key : Option String)
deriving DecidableEq, Repr

/-- core/rag_service.py lines 10-20: resolve key and model with Python `or`
against the config defaults, raise `ValueError("GROQ_API_KEY not set")`
when the resolved key is falsy, otherwise build the client and the chain.
Returns the trace of external effects next to the outcome. -/
def setup_rag_chain (cfgApiKey cfgModelName : Option String) (top_k : Int)
    (groq_api_key groq_model : Option String) :
    List RagEvent × Except String Chain :=
  let api_key := pyOr groq_api_key cfgApiKey
  let model := pyOr groq_model cfgModelName
  if pyFalsy api_key then
    ([], .error "GROQ_API_KEY not set")
  else
    ([RagEvent.createLLMClient model api_key], .ok ⟨model, api_key, top_k⟩)

/-! ## Stats aggregation -/

/-- One row of the collection listing. -/
structure CollectionStats where
  name : String
  count : Nat
  sample_sources : List String
deriving DecidableEq, Repr

/-- What inspecting one discovered collection yields: its chunk count and
the `source` values seen in a bounded metadata peek, or an error raised
during inspection. -/
inductive InspectOutcome where
  | inspected (count : Nat) (sources : List String)
  | inspectError (msg : String)
deriving DecidableEq, Repr

/-- Modelled from the spec: `list_collections_with_stats` lives in
`src/core/utils.py`, which is absent from the sources (only its callers in
contracts_cli.py and app.py are present). Spec 4.4 (StatsAggregator): for
every discoverable collection produce a stats row; a collection that errors
on inspection is reported with count 0 and an empty sample set instead of
aborting the listing; sources are deduplicated; the store's iteration order
is kept. -/
def statsOf : String × InspectOutcome → CollectionStats
  | (n, .inspected c srcs) => ⟨n, c, srcs.dedup⟩
  | (n, .inspectError _) => ⟨n, 0, []⟩

/-- Modelled from the spec: the aggregation over the discovered collections,
each paired with its inspection outcome. -/
def list_collections_with_stats (cols : List (String × InspectOutcome)) :
    List CollectionStats :=
  cols.map statsOf

/-! ## Concrete stores used by witnesses and counterexamples -/

/-- A sample chunk. -/
def docA : Doc := ⟨"termination clause text", [("source", "sample.pdf")]⟩

/-- Sentinel chunk the probe store returns only when it is asked for a
negative `k`. -/
def docNeg : Doc := ⟨"store saw a negative k", []⟩

/-- A store whose scored search reports the capability failure and whose
unscored search works. -/
def storeUnscoredOnly : ChromaStore :=
  ⟨some SearchErr.scoredUnsupported, none, fun _ _ => [docA], fun _ _ => 0⟩

/-- A store whose scored search fails for a non-capability reason while the
unscored search still works. -/
def storeScoredDown : ChromaStore :=
  ⟨some (SearchErr.storeFailure "storage unreachable"), none,
    fun _ _ => [docA], fun _ _ => 0⟩

/-- A store on which both search modes fail with a data failure. -/
def storeAllDown : ChromaStore :=
  ⟨some (SearchErr.storeFailure "storage unreachable"),
    some (SearchErr.storeFailure "storage unreachable"),
    fun _ _ => [], fun _ _ => 0⟩

/-- A probe store that reveals the `k` it was handed: it answers with
`docNeg` exactly when `k` is negative. -/
def storeProbe : ChromaStore :=
  ⟨some SearchErr.scoredUnsupported, none,
    fun _ k => if k < 0 then [docNeg] else [], fun _ _ => 0⟩

/-- A healthy store that honours the requested `k`: it returns one doc when
`1 ≤ k` and nothing otherwise. -/
def storeBounded : ChromaStore :=
  ⟨none, none, fun _ k => if 1 ≤ k then [docA] else [], fun _ _ => 0⟩

end ContractsRag

namespace ContractsRag

/-! ## Helper lemmas -/

/-- Attaching scores keeps the doc sequence: projecting the pairs back to
their first components recovers the ranked list. -/
theorem attachScores_map_fst (f : Nat → Int) :
    ∀ (l : List Doc) (i : Nat), (attachScores f l i).map (fun p => p.1) = l := by
  intro l
  induction l with
  | nil => intro i; rfl
  | cons d ds ih => intro i; simp [attachScores, ih]

/-- A successful retrieval returns exactly the store's ranked docs for the
requested (query, k), in order, whichever search mode produced them. -/
theorem performQuery_ok_docs (s : ChromaStore) (q : String) (k : Int)
    (noise : Nat) (rs : List (Doc × Option Int))
    (h : performQuery s q k noise = .ok rs) :
    rs.map (fun p => p.1) = s.rankedDocs q k := by
  cases hsf : s.scoredFailure with
  | none =>
      simp [performQuery, similarity_search_with_score, hsf] at h
      rw [← h]
      simp only [List.map_map, Function.comp_def]
      exact attachScores_map_fst (s.scoreAt noise) (s.rankedDocs q k) 0
  | some e =>
      cases huf : s.unscoredFailure with
      | none =>
          simp [performQuery, similarity_search_with_score, similarity_search,
            hsf, huf] at h
          rw [← h]
          simp only [List.map_map, Function.comp_def]
          simp
      | some e2 =>
          simp [performQuery, similarity_search_with_score, similarity_search,
            hsf, huf] at h

/-- The probe store honours the requested k bound. -/
theorem storeBounded_honours_k :
    ∀ (q0 : String) (k0 : Int), (storeBounded.rankedDocs q0 k0).length ≤ k0.toNat := by
  intro q0 k0
  simp only [storeBounded]
  split
  · simp only [List.length_cons, List.length_nil]
    omega
  · simp

end ContractsRag

namespace ContractsRag

/-! ## Claim theorems -/

/-- Claim C1: when the store reports scored similarity search unsupported
(and its unscored search works, the capability-failure situation), the
retrieval falls back to an unscored search with the same `top_k`, returns a
result in which every entry's score is `none`, and does not error. -/
theorem fallback_on_unsupported_scored_search (s : ChromaStore) (q : String)
    (k : Int) (noise : Nat)
    (hs : s.scoredFailure = some SearchErr.scoredUnsupported)
    (hu : s.unscoredFailure = none) :
    performQuery s q k noise = .ok ((s.rankedDocs q k).map (fun d => (d, none))) := by
  simp [performQuery, similarity_search_with_score, similarity_search, hs, hu]

/-- Witness for C1 at a concrete unscored-only store. -/
theorem fallback_on_unsupported_scored_search_witness :
    performQuery storeUnscoredOnly "q" 2 0 = .ok [(docA, none)] :=
  fallback_on_unsupported_scored_search storeUnscoredOnly "q" 2 0 rfl rfl

/-- Claim C2 counterexample: the scored search fails for a non-capability
reason (storage unreachable), yet the call does not propagate the failure -
the bare `except Exception` swallows it and the unscored fallback answers. -/
theorem nonCapability_scored_failure_swallowed :
    storeScoredDown.scoredFailure = some (SearchErr.storeFailure "storage unreachable") ∧
    performQuery storeScoredDown "q" 2 0 = .ok [(docA, none)] :=
  ⟨rfl, rfl⟩

/-- Claim C2 amended: any failure of the scored search, capability related
or not, is swallowed and triggers the unscored fallback for the same
`top_k`; a failure propagates to the caller only when the fallback search
itself fails, and then it is the fallback's error. -/
theorem any_scored_failure_falls_back (s : ChromaStore) (q : String) (k : Int)
    (noise : Nat) (e0 : SearchErr) (hs : s.scoredFailure = some e0) :
    (s.unscoredFailure = none →
      performQuery s q k noise = .ok ((s.rankedDocs q k).map (fun d => (d, none)))) ∧
    (∀ e, s.unscoredFailure = some e → performQuery s q k noise = .error e) := by
  constructor
  · intro hu
    simp [performQuery, similarity_search_with_score, similarity_search, hs, hu]
  · intro e hu
    simp [performQuery, similarity_search_with_score, similarity_search, hs, hu]

/-- Witness for the amended C2 at a store where both searches fail. -/
theorem any_scored_failure_falls_back_witness :
    performQuery storeAllDown "q" 1 0 =
      .error (SearchErr.storeFailure "storage unreachable") :=
  (any_scored_failure_falls_back storeAllDown "q" 1 0
      (SearchErr.storeFailure "storage unreachable") rfl).2
    (SearchErr.storeFailure "storage unreachable") rfl

/-- Claim C5 counterexample: `TOP_K="-3"` parses to -3 and that value
reaches the store's search unchanged - the probe store answers with its
negative-k sentinel - so the retrieval layer performs no clamping. -/
theorem negative_top_k_passed_unclamped :
    effectiveTopK (some "-3") = -3 ∧
    performQuery storeProbe "q" (effectiveTopK (some "-3")) 0 = .ok [(docNeg, none)] :=
  ⟨by decide, by rfl⟩

/-- Claim C5 amended: `top_k` is handed to the store unclamped; whenever the
store honours the requested bound (at most `max(top_k, 0)` ranked docs),
the retrieval result also has at most `max(top_k, 0)` entries, and
`top_k = 0` yields an empty result rather than an error. -/
theorem result_length_within_store_bound (s : ChromaStore) (q : String)
    (k : Int) (noise : Nat) (rs : List (Doc × Option Int))
    (hstore : ∀ q0 k0, (s.rankedDocs q0 k0).length ≤ k0.toNat)
    (h : performQuery s q k noise = .ok rs) :
    rs.length ≤ k.toNat ∧ (k = 0 → rs = []) := by
  have hfst := performQuery_ok_docs s q k noise rs h
  have hlen : rs.length ≤ k.toNat := by
    have hl := congrArg List.length hfst
    rw [List.length_map] at hl
    rw [hl]
    exact hstore q k
  refine ⟨hlen, fun hk => ?_⟩
  subst hk
  exact List.length_eq_zero.mp (Nat.le_zero.mp hlen)

/-- Witness for the amended C5 at a healthy bounded store with k = 1. -/
theorem result_length_within_store_bound_witness :
    ([(docA, some 0)] : List (Doc × Option Int)).length ≤ (1 : Int).toNat ∧
    ((1 : Int) = 0 → ([(docA, some 0)] : List (Doc × Option Int)) = []) :=
  result_length_within_store_bound storeBounded "q" 1 0 [(docA, some 0)]
    storeBounded_honours_k rfl

/-- Claim C8: two retrieval calls with identical `(handle, query, top_k)`
against an unmodified collection return the same ordered chunk identities,
whatever run-to-run numeric variation the store's scores show. -/
theorem retrieval_chunk_identity_stable (s : ChromaStore) (q : String)
    (k : Int) (n1 n2 : Nat) :
    chunkIds (performQuery s q k n1) = chunkIds (performQuery s q k n2) := by
  cases hsf : s.scoredFailure with
  | none =>
      simp only [chunkIds, performQuery, similarity_search_with_score, hsf,
        Except.map, List.map_map, Function.comp_def]
      rw [attachScores_map_fst, attachScores_map_fst]
  | some e =>
      cases huf : s.unscoredFailure with
      | none =>
          simp [chunkIds, performQuery, similarity_search_with_score,
            similarity_search, hsf, huf]
      | some e2 =>
          simp [chunkIds, performQuery, similarity_search_with_score,
            similarity_search, hsf, huf]

end ContractsRag

namespace ContractsRag

/-- Claim C3 counterexample: the supplied api_key is the empty string, yet
with a non-empty configured default the build succeeds and the LLM client
is created - it does not fail with a missing-credential error. -/
theorem empty_supplied_key_builds_with_config_default :
    setup_rag_chain (some "config-key") (some "llama") 3 (some "") none =
      ([RagEvent.createLLMClient (some "llama") (some "config-key")],
        .ok ⟨some "llama", some "config-key", 3⟩) :=
  rfl

/-- Claim C3 amended: the build fails with the missing-credential error
exactly when the effective credential - the supplied api_key, or the
configured default when the supplied one is absent or empty - is absent or
empty, and in that case no LLM client is created (the effect trace is
empty, so the check precedes any network resource). -/
theorem falsy_effective_credential_fails_before_llm
    (cfgApiKey cfgModelName groq_api_key groq_model : Option String)
    (top_k : Int) (h : pyFalsy (pyOr groq_api_key cfgApiKey) = true) :
    setup_rag_chain cfgApiKey cfgModelName top_k groq_api_key groq_model =
      ([], .error "GROQ_API_KEY not set") := by
  simp [setup_rag_chain, h]

/-- Witness for the amended C3: no supplied key, no configured default. -/
theorem falsy_effective_credential_fails_before_llm_witness :
    setup_rag_chain none none 3 (some "") none =
      ([], .error "GROQ_API_KEY not set") :=
  falsy_effective_credential_fails_before_llm none none (some "") none 3 rfl

/-- Claim C4 counterexample: the credential is present and the model name is
the empty string both as argument and as configured default, yet the build
succeeds and constructs the chain with the empty model name - no
invalid-configuration failure exists in the code. -/
theorem empty_model_name_builds :
    setup_rag_chain (some "k") (some "") 3 none (some "") =
      ([RagEvent.createLLMClient (some "") (some "k")],
        .ok ⟨some "", some "k", 3⟩) :=
  rfl

/-- Claim C4 amended: the build performs no model-name validation at all:
whenever the effective credential is non-empty it succeeds, resolving the
model with Python `or` against the configured default and constructing the
chain even when that resolved model name is empty or absent. -/
theorem build_performs_no_model_validation
    (cfgApiKey cfgModelName groq_api_key groq_model : Option String)
    (top_k : Int) (h : pyFalsy (pyOr groq_api_key cfgApiKey) = false) :
    setup_rag_chain cfgApiKey cfgModelName top_k groq_api_key groq_model =
      ([RagEvent.createLLMClient (pyOr groq_model cfgModelName)
          (pyOr groq_api_key cfgApiKey)],
        .ok ⟨pyOr groq_model cfgModelName, pyOr groq_api_key cfgApiKey, top_k⟩) := by
  simp [setup_rag_chain, h]

/-- Witness for the amended C4: key present, model empty everywhere. -/
theorem build_performs_no_model_validation_witness :
    setup_rag_chain (some "k") none 3 none (some "") =
      ([RagEvent.createLLMClient (pyOr (some "") none) (pyOr none (some "k"))],
        .ok ⟨pyOr (some "") none, pyOr none (some "k"), 3⟩) :=
  build_performs_no_model_validation (some "k") none none (some "") 3 rfl

/-- Claim C6: when the persisted store's root directory does not exist,
both entry points exit with the store-unavailable message and their startup
traces are empty: no embedding-function load, no collection open and no
search happens in that process. -/
theorem missing_store_root_aborts_startup (env : Env) (persistDirCfg : String)
    (pathExists : String → Bool) (expandUser : String → String)
    (h1 : pathExists (resolvedPersistDir env expandUser) = false)
    (h2 : pathExists (expandUser persistDirCfg) = false) :
    retrieveStartup env pathExists expandUser =
      ([], some ("Chroma persist directory not found: " ++
        resolvedPersistDir env expandUser)) ∧
    cliStartup persistDirCfg pathExists expandUser =
      ([], some ("Chroma persist directory not found: " ++
        expandUser persistDirCfg)) := by
  constructor
  · simp [retrieveStartup, h1]
  · simp [cliStartup, h2]

/-- Witness for C6 with a file system in which no path exists. -/
theorem missing_store_root_aborts_startup_witness :
    retrieveStartup ⟨none, none, none⟩ (fun _ => false) id =
      ([], some ("Chroma persist directory not found: " ++
        resolvedPersistDir ⟨none, none, none⟩ id)) ∧
    cliStartup "../chroma_db" (fun _ => false) id =
      ([], some ("Chroma persist directory not found: " ++ id "../chroma_db")) :=
  missing_store_root_aborts_startup ⟨none, none, none⟩ "../chroma_db"
    (fun _ => false) id rfl rfl

/-- Claim C7: the stats aggregation produces one row for every discovered
collection - it never drops the listing because one collection errors on
inspection - and a collection whose inspection fails appears with count 0
and an empty sample-source set. -/
theorem stats_listing_total_with_degraded_rows
    (cols : List (String × InspectOutcome)) :
    (list_collections_with_stats cols).length = cols.length ∧
    ∀ n m, (n, InspectOutcome.inspectError m) ∈ cols →
      (⟨n, 0, []⟩ : CollectionStats) ∈ list_collections_with_stats cols := by
  refine ⟨by simp [list_collections_with_stats], fun n m hmem => ?_⟩
  exact List.mem_map.mpr ⟨(n, InspectOutcome.inspectError m), hmem, rfl⟩

/-- Witness for C7: one healthy and one malformed collection. -/
theorem stats_listing_total_with_degraded_rows_witness :
    (⟨"bad", 0, []⟩ : CollectionStats) ∈ list_collections_with_stats
      [("good", InspectOutcome.inspected 3 ["a.pdf"]),
        ("bad", InspectOutcome.inspectError "boom")] :=
  (stats_listing_total_with_degraded_rows
      [("good", InspectOutcome.inspected 3 ["a.pdf"]),
        ("bad", InspectOutcome.inspectError "boom")]).2
    "bad" "boom" (by decide)

/-- Claim C9: a file whose size lookup raises `OSError` is skipped and
changes nothing in the output, and the result is rendered in KB exactly
when the accumulated byte total is below 1024*1024 and in MB otherwise;
the function always returns a string. -/
theorem dir_size_skips_errors_and_picks_unit (files : List (Option Nat)) :
    get_directory_size (none :: files) = get_directory_size files ∧
    (dirTotalSize files < 1024 * 1024 →
      get_directory_size files = fmt2 (dirTotalSize files) 1024 ++ " KB") ∧
    (1024 * 1024 ≤ dirTotalSize files →
      get_directory_size files = fmt2 (dirTotalSize files) (1024 * 1024) ++ " MB") := by
  refine ⟨rfl, fun h => ?_, fun h => ?_⟩
  · simp [get_directory_size, h]
  · simp [get_directory_size, Nat.not_lt.mpr h]

/-- Witness for C9 at a small directory listing. -/
theorem dir_size_skips_errors_and_picks_unit_witness :
    get_directory_size [none, some 1536] = get_directory_size [some 1536] ∧
    get_directory_size [some 1536] = fmt2 (dirTotalSize [some 1536]) 1024 ++ " KB" :=
  ⟨(dir_size_skips_errors_and_picks_unit [some 1536]).1,
    (dir_size_skips_errors_and_picks_unit [some 1536]).2.1 (by decide)⟩

/-- Claim C10: with `TOP_K` absent the effective top_k is 2, while any
string `int` rejects makes it 5 - an invalid value yields a different
default than an absent one, and the parse never errors out. -/
theorem top_k_env_defaults (s : String) (h : pyIntOfString s = none) :
    effectiveTopK none = 2 ∧ effectiveTopK (some s) = 5 := by
  refine ⟨by decide, ?_⟩
  simp [effectiveTopK, h]

/-- Witness for C10 at the non-integer string "abc". -/
theorem top_k_env_defaults_witness :
    effectiveTopK none = 2 ∧ effectiveTopK (some "abc") = 5 :=
  top_k_env_defaults "abc" (by decide)

end ContractsRag
